import Mathlib

/-! # qat-java JNI bridge: a shallow embedding

Embedding of `src/main/jni/com_intel_qat_DummyJNI.c` (the stub codec) and
`src/main/jni/com_intel_qat_ZstdJNI.c` (the QAT/zstd bridge).

Conventions of the embedding:

* `jint`, `jlong`, `int` values are `Int`; `unsigned int`, `size_t` values and
  native handles are `Nat`.  Every C conversion between them is written out
  (`toJint`, `toUInt`, `toSizeT`).
* A byte array is a `List Byte`; `GetByteArrayElements` hands the native code a
  private copy and `ReleaseByteArrayElements` (mode 0) copies it back, so the
  arrays are passed and returned by value.
* Loops run on explicit fuel and memory accesses are bounds-checked, so that
  termination and memory safety are statements about the result.
-/

namespace QatJava

/-! ## Machine integers -/

/-- An `unsigned char`. -/
abbrev Byte := Fin 256

/-- Conversion to a 32-bit signed integer (`jint`, `int`): the low 32 bits read
in two's complement. -/
def toJint (x : Int) : Int := (x + 2 ^ 31) % 2 ^ 32 - 2 ^ 31

/-- Conversion to a 64-bit signed integer (`jlong`). -/
def toJlong (x : Int) : Int := (x + 2 ^ 63) % 2 ^ 64 - 2 ^ 63

/-- Conversion to `unsigned int`. -/
def toUInt (x : Int) : Nat := (x % 2 ^ 32).toNat

/-- Conversion to `size_t` (64 bits). -/
def toSizeT (x : Int) : Nat := (x % 2 ^ 64).toNat

/-- The values a `jint` can hold. -/
def isJint (x : Int) : Prop := -2 ^ 31 ≤ x ∧ x < 2 ^ 31

/-- The values a `jlong` can hold. -/
def isJlong (x : Int) : Prop := -2 ^ 63 ≤ x ∧ x < 2 ^ 63

instance (x : Int) : Decidable (isJint x) := by unfold isJint; infer_instance

instance (x : Int) : Decidable (isJlong x) := by unfold isJlong; infer_instance

/-! ## The stub codec, `com_intel_qat_DummyJNI.c` -/

/-- The entry point `Java_com_intel_qat_DummyJNI_maxCompressedSize`: `return ratio * src_size;`.
The product is formed in `jlong` (the `jint` ratio is promoted) and the
`jint` return type keeps its low 32 bits. -/
def Java_com_intel_qat_DummyJNI_maxCompressedSize (ratio : Int) (src_size : Int) : Int :=
  toJint (toJlong (ratio * src_size))

/-- What can go wrong while running native code in the embedding. -/
inductive Fault where
  | outOfFuel
  | outOfBounds
  deriving DecidableEq, Repr

deriving instance DecidableEq for Except

/-- Read `ptr[i]`; an index outside the array is a fault. -/
def readAt (ptr : List Byte) (i : Int) : Except Fault Byte :=
  if 0 ≤ i then
    match ptr[i.toNat]? with
    | some b => .ok b
    | none => .error .outOfBounds
  else .error .outOfBounds

/-- Perform `ptr[i] = b`; an index outside the array is a fault. -/
def writeAt (ptr : List Byte) (i : Int) (b : Byte) : Except Fault (List Byte) :=
  if 0 ≤ i ∧ i < ptr.length then .ok (ptr.set i.toNat b) else .error .outOfBounds

/-- The variables the loops of the stub update. -/
structure LoopState where
  dst_ptr : List Byte
  bytes_written : Int
  deriving DecidableEq, Repr

/-- The inner loop of the stub,
`for (int i = 0; i < src_len && bytes_written < dst_len; i++)`, entered at `i`. -/
def stubInnerLoop (src_ptr : List Byte) (src_pos src_len dst_pos dst_len : Int) :
    Nat → Int → LoopState → Except Fault LoopState
  | 0, _, _ => .error .outOfFuel
  | fuel + 1, i, st =>
    if i < src_len ∧ st.bytes_written < dst_len then
      match readAt src_ptr (src_pos + i) with
      | .error e => .error e
      | .ok b =>
        match writeAt st.dst_ptr (dst_pos + st.bytes_written) b with
        | .error e => .error e
        | .ok dst_ptr => stubInnerLoop src_ptr src_pos src_len dst_pos dst_len fuel (i + 1)
            { dst_ptr := dst_ptr, bytes_written := st.bytes_written + 1 }
    else .ok st

/-- The outer loop of the stub, `for (int j = 0; j < expansion_ratio; j++)`,
entered at `j`; each run of the inner loop gets `innerFuel`. -/
def stubOuterLoop (src_ptr : List Byte) (src_pos src_len dst_pos dst_len : Int)
    (expansion_ratio : Int) (innerFuel : Nat) :
    Nat → Int → LoopState → Except Fault LoopState
  | 0, _, _ => .error .outOfFuel
  | fuel + 1, j, st =>
    if j < expansion_ratio then
      match stubInnerLoop src_ptr src_pos src_len dst_pos dst_len innerFuel 0 st with
      | .error e => .error e
      | .ok st1 =>
        stubOuterLoop src_ptr src_pos src_len dst_pos dst_len expansion_ratio innerFuel
          fuel (j + 1) st1
    else .ok st

/-- What a call of the stub leaves behind: both arrays after
`ReleaseByteArrayElements`, and the returned `jint`. -/
structure StubResult where
  src_arr : List Byte
  dst_arr : List Byte
  ret : Int
  deriving DecidableEq, Repr

/-- The entry point `Java_com_intel_qat_DummyJNI_compressByteArray`, with `expansion_ratio = 2`
hard-coded as in the source. -/
def Java_com_intel_qat_DummyJNI_compressByteArray (fuel : Nat) (src_arr : List Byte)
    (src_pos src_len : Int) (dst_arr : List Byte) (dst_pos dst_len : Int) :
    Except Fault StubResult :=
  let src_ptr := src_arr
  let dst_ptr := dst_arr
  let expansion_ratio : Int := 2
  let bytes_written : Int := 0
  match stubOuterLoop src_ptr src_pos src_len dst_pos dst_len expansion_ratio fuel fuel 0
      { dst_ptr := dst_ptr, bytes_written := bytes_written } with
  | .error e => .error e
  | .ok st => .ok { src_arr := src_ptr, dst_arr := st.dst_ptr, ret := st.bytes_written }

/-! ### The stub with its memory accesses recorded

The same loops, carrying along the index of every read of `src_ptr` and of
every write of `dst_ptr`, oldest first.  `stubInnerLoopTraced_erase` and its
companions show that dropping the record gives back the loops above. -/

/-- The loop variables together with the indices accessed so far. -/
structure TracedState where
  st : LoopState
  reads : List Int
  writes : List Int
  deriving DecidableEq, Repr

/-- The inner loop of the stub, recording `src_pos + i` at every read and
`dst_pos + bytes_written` at every write. -/
def stubInnerLoopTraced (src_ptr : List Byte) (src_pos src_len dst_pos dst_len : Int) :
    Nat → Int → TracedState → Except Fault TracedState
  | 0, _, _ => .error .outOfFuel
  | fuel + 1, i, t =>
    if i < src_len ∧ t.st.bytes_written < dst_len then
      match readAt src_ptr (src_pos + i) with
      | .error e => .error e
      | .ok b =>
        match writeAt t.st.dst_ptr (dst_pos + t.st.bytes_written) b with
        | .error e => .error e
        | .ok dst_ptr => stubInnerLoopTraced src_ptr src_pos src_len dst_pos dst_len fuel (i + 1)
            { st := { dst_ptr := dst_ptr, bytes_written := t.st.bytes_written + 1 },
              reads := t.reads ++ [src_pos + i],
              writes := t.writes ++ [dst_pos + t.st.bytes_written] }
    else .ok t

/-- The outer loop of the stub over the recording inner loop. -/
def stubOuterLoopTraced (src_ptr : List Byte) (src_pos src_len dst_pos dst_len : Int)
    (expansion_ratio : Int) (innerFuel : Nat) :
    Nat → Int → TracedState → Except Fault TracedState
  | 0, _, _ => .error .outOfFuel
  | fuel + 1, j, t =>
    if j < expansion_ratio then
      match stubInnerLoopTraced src_ptr src_pos src_len dst_pos dst_len innerFuel 0 t with
      | .error e => .error e
      | .ok t1 =>
        stubOuterLoopTraced src_ptr src_pos src_len dst_pos dst_len expansion_ratio innerFuel
          fuel (j + 1) t1
    else .ok t

/-- What a recorded call of the stub leaves behind. -/
structure TracedResult where
  result : StubResult
  reads : List Int
  writes : List Int
  deriving DecidableEq, Repr

/-- The entry point `Java_com_intel_qat_DummyJNI_compressByteArray` with its memory
accesses recorded. -/
def compressByteArrayTraced (fuel : Nat) (src_arr : List Byte)
    (src_pos src_len : Int) (dst_arr : List Byte) (dst_pos dst_len : Int) :
    Except Fault TracedResult :=
  let src_ptr := src_arr
  let dst_ptr := dst_arr
  let expansion_ratio : Int := 2
  let bytes_written : Int := 0
  match stubOuterLoopTraced src_ptr src_pos src_len dst_pos dst_len expansion_ratio fuel fuel 0
      { st := { dst_ptr := dst_ptr, bytes_written := bytes_written }, reads := [],
        writes := [] } with
  | .error e => .error e
  | .ok t =>
    .ok { result := { src_arr := src_ptr, dst_arr := t.st.dst_ptr, ret := t.st.bytes_written },
          reads := t.reads, writes := t.writes }

/-- The record of accesses is consistent with the regions: every read index lies
in `[src_pos, src_pos + src_len)`, every write index in
`[dst_pos, dst_pos + dst_len)`, and there is one read and one write per byte
counted in `bytes_written`. -/
def TracedState.inRegions (src_pos src_len dst_pos dst_len : Int) (t : TracedState) : Prop :=
  (∀ x ∈ t.reads, src_pos ≤ x ∧ x < src_pos + src_len) ∧
  (∀ x ∈ t.writes, dst_pos ≤ x ∧ x < dst_pos + dst_len) ∧
  (t.reads.length : Int) = t.st.bytes_written ∧
  (t.writes.length : Int) = t.st.bytes_written

/-! ## The external collaborators of `com_intel_qat_ZstdJNI.c` -/

/-- What a one-shot call of the external codec leaves behind: the returned
`size_t` and the bytes it stored at the front of the destination. -/
structure CodecCall where
  res : Nat
  written : List Byte
  deriving DecidableEq, Repr

/-- The codec library boundary (zstd), kept abstract.  The one-shot calls take
the context handle, the destination capacity and the source bytes. -/
structure Codec where
  ZSTD_compress2 : Nat → Nat → List Byte → CodecCall
  ZSTD_decompressDCtx : Nat → Nat → List Byte → CodecCall
  ZSTD_isError : Nat → Bool
  ZSTD_getErrorName : Nat → String
  ZSTD_compressBound : Nat → Nat

/-- A pointer into a block of memory: the block and an offset into it. -/
structure Ptr where
  mem : List Byte
  off : Int
  deriving DecidableEq, Repr

/-- Pointer arithmetic `p + n`. -/
def Ptr.add (p : Ptr) (n : Int) : Ptr := { p with off := p.off + n }

/-- The `len` bytes a pointer points at. -/
def Ptr.load (p : Ptr) (len : Nat) : List Byte := (p.mem.drop p.off.toNat).take len

/-- The block after `bytes` were stored at the pointer. -/
def Ptr.store (p : Ptr) (bytes : List Byte) : List Byte :=
  p.mem.take p.off.toNat ++ bytes ++ p.mem.drop (p.off.toNat + bytes.length)

/-- A failure raised towards the Java caller. -/
structure Exn where
  code : Int
  msg : String
  deriving DecidableEq, Repr

/-- The part of the JVM the bridge touches: the failures raised so far (oldest
first), the `position` field of every `java.nio.ByteBuffer` object and the
memory behind every direct buffer.  Objects are named by a number. -/
structure JNIEnv where
  thrown : List Exn
  position : Nat → Int
  direct : Nat → List Byte

/-- Modelled from the spec: `throw_exception` of `util.h`, which is not among the
sources.  The Error Translator turns a native status code and a message into one
failure reported to the caller; the call returns to the native code. -/
def throw_exception (env : JNIEnv) (code : Int) (msg : String) : JNIEnv :=
  { env with thrown := env.thrown ++ [{ code := code, msg := msg }] }

/-- The call `(*env)->SetIntField(env, buf, nio_bytebuffer_position_id, value)`. -/
def SetIntField (env : JNIEnv) (buf : Nat) (value : Int) : JNIEnv :=
  { env with position := Function.update env.position buf value }

/-- The text `sprintf(msg, "<what>: %lu of %d", res, dst_len)` produces. -/
def incompleteMsg (what : String) (res : Nat) (dst_len : Nat) : String :=
  what ++ ": " ++ toString res ++ " of " ++ toString (toJint dst_len)

/-! ## The helpers `compress` and `decompress` -/

/-- What a helper leaves behind: the environment, the destination block and the
two out-parameters. -/
structure HelperResult where
  env : JNIEnv
  dst_mem : List Byte
  bytes_read : Int
  bytes_written : Int

/-- The static helper `compress`.  `bytes_read` and `bytes_written` are the
values the out-parameters hold on entry. -/
def compress (c : Codec) (env : JNIEnv) (cctx : Nat) (src_ptr : Ptr) (src_len : Nat)
    (dst_ptr : Ptr) (dst_len : Nat) (bytes_read bytes_written : Int) (retry_count : Int) :
    HelperResult :=
  let _ := retry_count
  let call := c.ZSTD_compress2 cctx dst_len (src_ptr.load src_len)
  let res := call.res
  let dst_mem := dst_ptr.store call.written
  if c.ZSTD_isError res then
    { env := throw_exception env res (c.ZSTD_getErrorName res), dst_mem := dst_mem,
      bytes_read := bytes_read, bytes_written := bytes_written }
  else
    let env1 := if res ≠ dst_len then
        throw_exception env res (incompleteMsg "Failed to fully compress the input" res dst_len)
      else env
    { env := env1, dst_mem := dst_mem,
      bytes_read := toJint src_len, bytes_written := toJint dst_len }

/-- The static helper `decompress`. -/
def decompress (c : Codec) (env : JNIEnv) (dctx : Nat) (src_ptr : Ptr) (src_len : Nat)
    (dst_ptr : Ptr) (dst_len : Nat) (bytes_read bytes_written : Int) (retry_count : Int) :
    HelperResult :=
  let _ := retry_count
  let call := c.ZSTD_decompressDCtx dctx dst_len (src_ptr.load src_len)
  let res := call.res
  let dst_mem := dst_ptr.store call.written
  if c.ZSTD_isError res then
    { env := throw_exception env res (c.ZSTD_getErrorName res), dst_mem := dst_mem,
      bytes_read := bytes_read, bytes_written := bytes_written }
  else if res ≠ dst_len then
    { env := throw_exception env res
        (incompleteMsg "Failed to fully decompress the input" res dst_len),
      dst_mem := dst_mem, bytes_read := bytes_read, bytes_written := bytes_written }
  else
    { env := env, dst_mem := dst_mem,
      bytes_read := toJint src_len, bytes_written := toJint dst_len }

/-! ## The entry points of `com_intel_qat_ZstdJNI.c` -/

/-- The codec wrote through a pointer into the memory of a direct buffer. -/
def storeDirect (env : JNIEnv) (buf : Nat) (mem : List Byte) : JNIEnv :=
  { env with direct := Function.update env.direct buf mem }

/-- What an entry point on two byte arrays leaves behind. -/
structure ArrayResult where
  env : JNIEnv
  src_arr : List Byte
  dst_arr : List Byte
  ret : Int

/-- What an entry point on two direct buffers leaves behind. -/
structure DirectResult where
  env : JNIEnv
  ret : Int

/-- What an entry point with a direct source and an array destination leaves behind. -/
structure DirectSrcResult where
  env : JNIEnv
  dst_arr : List Byte
  ret : Int

/-- What an entry point with an array source and a direct destination leaves behind. -/
structure DirectDstResult where
  env : JNIEnv
  src_arr : List Byte
  ret : Int

/-- The entry point `Java_com_intel_qat_ZstdJNI_compressByteArray`. -/
def Java_com_intel_qat_ZstdJNI_compressByteArray (c : Codec) (env : JNIEnv) (long_cctx : Int)
    (src_arr : List Byte) (src_pos src_len : Int) (dst_arr : List Byte) (dst_pos dst_len : Int)
    (retry_count : Int) : ArrayResult :=
  let cctx := toSizeT long_cctx
  let src_ptr : Ptr := { mem := src_arr, off := 0 }
  let dst_ptr : Ptr := { mem := dst_arr, off := 0 }
  let bytes_read : Int := 0
  let bytes_written : Int := 0
  let r := compress c env cctx (src_ptr.add src_pos) (toUInt src_len) (dst_ptr.add dst_pos)
    (toUInt dst_len) bytes_read bytes_written retry_count
  let env1 := r.env
  { env := env1, src_arr := src_arr, dst_arr := r.dst_mem, ret := r.bytes_written }

/-- The entry point `Java_com_intel_qat_ZstdJNI_decompressByteArray`. -/
def Java_com_intel_qat_ZstdJNI_decompressByteArray (c : Codec) (env : JNIEnv) (long_dctx : Int)
    (src_arr : List Byte) (src_pos src_len : Int) (dst_arr : List Byte) (dst_pos dst_len : Int)
    (retry_count : Int) : ArrayResult :=
  let dctx := toSizeT long_dctx
  let src_ptr : Ptr := { mem := src_arr, off := 0 }
  let dst_ptr : Ptr := { mem := dst_arr, off := 0 }
  let bytes_read : Int := 0
  let bytes_written : Int := 0
  let r := decompress c env dctx (src_ptr.add src_pos) (toUInt src_len) (dst_ptr.add dst_pos)
    (toUInt dst_len) bytes_read bytes_written retry_count
  let env1 := r.env
  { env := env1, src_arr := src_arr, dst_arr := r.dst_mem, ret := r.bytes_written }

/-- The entry point `Java_com_intel_qat_ZstdJNI_compressByteBuffer`. -/
def Java_com_intel_qat_ZstdJNI_compressByteBuffer (c : Codec) (env : JNIEnv) (long_cctx : Int) (src_buf : Nat)
    (src_arr : List Byte) (src_pos src_len : Int) (dst_arr : List Byte) (dst_pos dst_len : Int)
    (retry_count : Int) : ArrayResult :=
  let cctx := toSizeT long_cctx
  let src_ptr : Ptr := { mem := src_arr, off := 0 }
  let dst_ptr : Ptr := { mem := dst_arr, off := 0 }
  let bytes_read : Int := 0
  let bytes_written : Int := 0
  let r := compress c env cctx (src_ptr.add src_pos) (toUInt src_len) (dst_ptr.add dst_pos)
    (toUInt dst_len) bytes_read bytes_written retry_count
  let env1 := SetIntField r.env src_buf (toJint (src_pos + r.bytes_read))
  { env := env1, src_arr := src_arr, dst_arr := r.dst_mem, ret := r.bytes_written }

/-- The entry point `Java_com_intel_qat_ZstdJNI_decompressByteBuffer`. -/
def Java_com_intel_qat_ZstdJNI_decompressByteBuffer (c : Codec) (env : JNIEnv) (long_dctx : Int) (src_buf : Nat)
    (src_arr : List Byte) (src_pos src_len : Int) (dst_arr : List Byte) (dst_pos dst_len : Int)
    (retry_count : Int) : ArrayResult :=
  let dctx := toSizeT long_dctx
  let src_ptr : Ptr := { mem := src_arr, off := 0 }
  let dst_ptr : Ptr := { mem := dst_arr, off := 0 }
  let bytes_read : Int := 0
  let bytes_written : Int := 0
  let r := decompress c env dctx (src_ptr.add src_pos) (toUInt src_len) (dst_ptr.add dst_pos)
    (toUInt dst_len) bytes_read bytes_written retry_count
  let env1 := SetIntField r.env src_buf (toJint (src_pos + r.bytes_read))
  { env := env1, src_arr := src_arr, dst_arr := r.dst_mem, ret := r.bytes_written }

/-- The entry point `Java_com_intel_qat_ZstdJNI_compressDirectByteBuffer`. -/
def Java_com_intel_qat_ZstdJNI_compressDirectByteBuffer (c : Codec) (env : JNIEnv) (long_cctx : Int)
    (src_buf : Nat) (src_pos src_len : Int) (dst_buf : Nat) (dst_pos dst_len : Int)
    (retry_count : Int) : DirectResult :=
  let cctx := toSizeT long_cctx
  let src_ptr : Ptr := { mem := env.direct src_buf, off := 0 }
  let dst_ptr : Ptr := { mem := env.direct dst_buf, off := 0 }
  let bytes_read : Int := 0
  let bytes_written : Int := 0
  let r := compress c env cctx (src_ptr.add src_pos) (toUInt src_len) (dst_ptr.add dst_pos)
    (toUInt dst_len) bytes_read bytes_written retry_count
  let env1 := storeDirect r.env dst_buf r.dst_mem
  let env2 := SetIntField env1 src_buf (toJint (src_pos + r.bytes_read))
  let env3 := SetIntField env2 dst_buf (toJint (dst_pos + r.bytes_written))
  { env := env3, ret := r.bytes_written }

/-- The entry point `Java_com_intel_qat_ZstdJNI_decompressDirectByteBuffer`. -/
def Java_com_intel_qat_ZstdJNI_decompressDirectByteBuffer (c : Codec) (env : JNIEnv) (long_dctx : Int)
    (src_buf : Nat) (src_pos src_len : Int) (dst_buf : Nat) (dst_pos dst_len : Int)
    (retry_count : Int) : DirectResult :=
  let dctx := toSizeT long_dctx
  let src_ptr : Ptr := { mem := env.direct src_buf, off := 0 }
  let dst_ptr : Ptr := { mem := env.direct dst_buf, off := 0 }
  let bytes_read : Int := 0
  let bytes_written : Int := 0
  let r := decompress c env dctx (src_ptr.add src_pos) (toUInt src_len) (dst_ptr.add dst_pos)
    (toUInt dst_len) bytes_read bytes_written retry_count
  let env1 := storeDirect r.env dst_buf r.dst_mem
  let env2 := SetIntField env1 src_buf (toJint (src_pos + r.bytes_read))
  let env3 := SetIntField env2 dst_buf (toJint (dst_pos + r.bytes_written))
  { env := env3, ret := r.bytes_written }

/-- The entry point `Java_com_intel_qat_ZstdJNI_compressDirectByteBufferSrc`. -/
def Java_com_intel_qat_ZstdJNI_compressDirectByteBufferSrc (c : Codec) (env : JNIEnv) (long_cctx : Int)
    (src_buf : Nat) (src_pos src_len : Int) (dst_arr : List Byte) (dst_pos dst_len : Int)
    (retry_count : Int) : DirectSrcResult :=
  let cctx := toSizeT long_cctx
  let src_ptr : Ptr := { mem := env.direct src_buf, off := 0 }
  let dst_ptr : Ptr := { mem := dst_arr, off := 0 }
  let bytes_read : Int := 0
  let bytes_written : Int := 0
  let r := compress c env cctx (src_ptr.add src_pos) (toUInt src_len) (dst_ptr.add dst_pos)
    (toUInt dst_len) bytes_read bytes_written retry_count
  let env1 := SetIntField r.env src_buf (toJint (src_pos + r.bytes_read))
  { env := env1, dst_arr := r.dst_mem, ret := r.bytes_written }

/-- The entry point `Java_com_intel_qat_ZstdJNI_decompressDirectByteBufferSrc`. -/
def Java_com_intel_qat_ZstdJNI_decompressDirectByteBufferSrc (c : Codec) (env : JNIEnv) (long_dctx : Int)
    (src_buf : Nat) (src_pos src_len : Int) (dst_arr : List Byte) (dst_pos dst_len : Int)
    (retry_count : Int) : DirectSrcResult :=
  let dctx := toSizeT long_dctx
  let src_ptr : Ptr := { mem := env.direct src_buf, off := 0 }
  let dst_ptr : Ptr := { mem := dst_arr, off := 0 }
  let bytes_read : Int := 0
  let bytes_written : Int := 0
  let r := decompress c env dctx (src_ptr.add src_pos) (toUInt src_len) (dst_ptr.add dst_pos)
    (toUInt dst_len) bytes_read bytes_written retry_count
  let env1 := SetIntField r.env src_buf (toJint (src_pos + r.bytes_read))
  { env := env1, dst_arr := r.dst_mem, ret := r.bytes_written }

/-- The entry point `Java_com_intel_qat_ZstdJNI_compressDirectByteBufferDst`. -/
def Java_com_intel_qat_ZstdJNI_compressDirectByteBufferDst (c : Codec) (env : JNIEnv) (long_cctx : Int)
    (src_buf : Nat) (src_arr : List Byte) (src_pos src_len : Int) (dst_buf : Nat)
    (dst_pos dst_len : Int) (retry_count : Int) : DirectDstResult :=
  let cctx := toSizeT long_cctx
  let src_ptr : Ptr := { mem := src_arr, off := 0 }
  let dst_ptr : Ptr := { mem := env.direct dst_buf, off := 0 }
  let bytes_read : Int := 0
  let bytes_written : Int := 0
  let r := compress c env cctx (src_ptr.add src_pos) (toUInt src_len) (dst_ptr.add dst_pos)
    (toUInt dst_len) bytes_read bytes_written retry_count
  let env1 := storeDirect r.env dst_buf r.dst_mem
  let env2 := SetIntField env1 src_buf (toJint (src_pos + r.bytes_read))
  let env3 := SetIntField env2 dst_buf (toJint (dst_pos + r.bytes_written))
  { env := env3, src_arr := src_arr, ret := r.bytes_written }

/-- The entry point `Java_com_intel_qat_ZstdJNI_decompressDirectByteBufferDst`. -/
def Java_com_intel_qat_ZstdJNI_decompressDirectByteBufferDst (c : Codec) (env : JNIEnv) (long_dctx : Int)
    (src_buf : Nat) (src_arr : List Byte) (src_pos src_len : Int) (dst_buf : Nat)
    (dst_pos dst_len : Int) (retry_count : Int) : DirectDstResult :=
  let dctx := toSizeT long_dctx
  let src_ptr : Ptr := { mem := src_arr, off := 0 }
  let dst_ptr : Ptr := { mem := env.direct dst_buf, off := 0 }
  let bytes_read : Int := 0
  let bytes_written : Int := 0
  let r := decompress c env dctx (src_ptr.add src_pos) (toUInt src_len) (dst_ptr.add dst_pos)
    (toUInt dst_len) bytes_read bytes_written retry_count
  let env1 := storeDirect r.env dst_buf r.dst_mem
  let env2 := SetIntField env1 src_buf (toJint (src_pos + r.bytes_read))
  let env3 := SetIntField env2 dst_buf (toJint (dst_pos + r.bytes_written))
  { env := env3, src_arr := src_arr, ret := r.bytes_written }

/-- The entry point `Java_com_intel_qat_ZstdJNI_maxCompressedSize`:
`return ZSTD_compressBound(src_size);`, the `jlong` argument converted to
`size_t` and the `size_t` bound to the `jint` return type. -/
def Java_com_intel_qat_ZstdJNI_maxCompressedSize (c : Codec) (src_size : Int) : Int :=
  toJint (c.ZSTD_compressBound (toSizeT src_size))

/-! ## Session lifecycle: `setup` and `teardown` -/

/-- The native world outside the JVM: the handles of the native objects that
are alive (codec contexts, sequence-producer states) and whether the QAT device
is running. -/
structure Native where
  live : List Nat
  deviceRunning : Bool
  deriving DecidableEq, Repr

/-- Modelled from the spec: the success status `QZSTD_OK` of `qatseqprod.h`, which
is not among the sources; `startDevice() -> status` reports success with it. -/
def QZSTD_OK : Int := 0

/-- Modelled from the spec: the success status `QZ_OK` of `qatzip.h`, which is not
among the sources; the documentation of `compress` gives its value,
`QZ_OK (0) if successful`. -/
def QZ_OK : Int := 0

/-- What the external calls made by one run of `setup` return: the status of
`QZSTD_startQatDevice`, the handles of `ZSTD_createCCtx`, `ZSTD_createDCtx` and
`QZSTD_createSeqProdState` (0 is `NULL`), and the results of the two
`ZSTD_CCtx_setParameter` calls. -/
structure SetupOutcome where
  startQatDevice : Int
  createCCtx : Nat
  createDCtx : Nat
  createSeqProdState : Nat
  setFallback : Nat
  setLevel : Nat
  deriving DecidableEq, Repr

/-- The accelerator boundary `startDevice() -> status`: the device runs once a
start reported `QZSTD_OK`. -/
def QZSTD_startQatDevice (w : Native) (status : Int) : Native :=
  if status = QZSTD_OK then { w with deviceRunning := true } else w

/-- The accelerator boundary `stopDevice()`. -/
def QZSTD_stopQatDevice (w : Native) : Native := { w with deviceRunning := false }

/-- A creation call returned `handle`: a non-null handle names a new live object. -/
def created (w : Native) (handle : Nat) : Native :=
  if handle = 0 then w else { w with live := handle :: w.live }

/-- A free call (`ZSTD_freeCCtx`, `ZSTD_freeDCtx`, `QZSTD_freeSeqProdState`) on
`handle`. -/
def freed (w : Native) (handle : Nat) : Native := { w with live := w.live.erase handle }

/-- The three `long` fields of a `com.intel.qat.ZstdBackend` object. -/
structure ZstdBackend where
  cctx : Int
  dctx : Int
  sequenceProducerState : Int
  deriving DecidableEq, Repr

/-- What `setup` leaves behind. -/
structure SetupResult where
  env : JNIEnv
  native : Native
  zstd_backend : ZstdBackend

/-- The entry point `Java_com_intel_qat_ZstdJNI_setup`.  The field-ID lookups and
`ZSTD_registerSequenceProducer` leave the modelled state as it is; the results of
the other external calls are taken from `o`. -/
def Java_com_intel_qat_ZstdJNI_setup (c : Codec) (o : SetupOutcome) (env : JNIEnv)
    (w : Native) (zstd_backend : ZstdBackend) (sw_backup comp_algorithm level : Int) :
    SetupResult :=
  let _ := (sw_backup, comp_algorithm, level)
  let status0 := o.startQatDevice
  let w0 := QZSTD_startQatDevice w status0
  if status0 ≠ QZSTD_OK then
    { env := throw_exception env status0 "Initializing QAT HW failed.",
      native := w0, zstd_backend := zstd_backend }
  else
    let cctx := o.createCCtx
    let w1 := created w0 cctx
    let dctx := o.createDCtx
    let w2 := created w1 dctx
    let sequenceProducerState := o.createSeqProdState
    let w3 := created w2 sequenceProducerState
    if sequenceProducerState = 0 then
      { env := throw_exception env (-1) "Initializing QAT sequence producer state failed.",
        native := w3, zstd_backend := zstd_backend }
    else
      let status := o.setFallback
      if c.ZSTD_isError status then
        { env := throw_exception env (-1)
            "Configuring sequence producer fallback failed. Are you using zstd 1.5.5 or newer?",
          native := w3, zstd_backend := zstd_backend }
      else
        let status := o.setLevel
        if c.ZSTD_isError status then
          { env := throw_exception env (-1) "Configuring compression level failed.",
            native := w3, zstd_backend := zstd_backend }
        else
          { env := env, native := w3,
            zstd_backend :=
              { cctx := toJlong cctx, dctx := toJlong dctx,
                sequenceProducerState := toJlong sequenceProducerState } }

/-- What `teardown` leaves behind. -/
structure TeardownResult where
  native : Native
  ret : Int
  deriving DecidableEq, Repr

/-- The entry point `Java_com_intel_qat_ZstdJNI_teardown`: each handle is freed when it is not
null, then the device is stopped. -/
def Java_com_intel_qat_ZstdJNI_teardown (w : Native)
    (long_cctx long_dctx long_sequenceProducerState : Int) : TeardownResult :=
  let cctx := toSizeT long_cctx
  let dctx := toSizeT long_dctx
  let sequenceProducerState := toSizeT long_sequenceProducerState
  let w1 := if cctx ≠ 0 then freed w cctx else w
  let w2 := if dctx ≠ 0 then freed w1 dctx else w1
  let w3 := if sequenceProducerState ≠ 0 then freed w2 sequenceProducerState else w2
  let w4 := QZSTD_stopQatDevice w3
  { native := w4, ret := QZ_OK }

/-! ## Vocabulary of the statements -/

/-- A call raised a failure: `throw_exception` was called between the
environment `before` and the environment `after`. -/
def raised (before after : JNIEnv) : Prop := before.thrown.length < after.thrown.length

instance (before after : JNIEnv) : Decidable (raised before after) := by
  unfold raised; infer_instance

/-- A session whose three handles are all non-null. -/
def ZstdBackend.initialized (b : ZstdBackend) : Prop :=
  b.cctx ≠ 0 ∧ b.dctx ≠ 0 ∧ b.sequenceProducerState ≠ 0

instance (b : ZstdBackend) : Decidable b.initialized := by
  unfold ZstdBackend.initialized; infer_instance

/-- The contract the round-trip law assumes of the external codec, for the
contexts `cctx` and `dctx` and the sizes the bridge can pass (below 2^31):
a compress call into at least `ZSTD_compressBound` bytes reports no error; a
call that reports no error reports the number of bytes it stored, which is at
most the capacity and at most the bound; and decompressing what it stored into
at least the original length gives back the original bytes and their count,
which is no error status. -/
structure Codec.Lossless (c : Codec) (cctx dctx : Nat) : Prop where
  compress_ok : ∀ (cap : Nat) (src : List Byte), src.length < 2 ^ 31 →
    c.ZSTD_compressBound src.length ≤ cap →
    c.ZSTD_isError (c.ZSTD_compress2 cctx cap src).res = false
  compress_size : ∀ (cap : Nat) (src : List Byte), src.length < 2 ^ 31 →
    c.ZSTD_isError (c.ZSTD_compress2 cctx cap src).res = false →
    (c.ZSTD_compress2 cctx cap src).written.length = (c.ZSTD_compress2 cctx cap src).res ∧
    (c.ZSTD_compress2 cctx cap src).res ≤ cap ∧
    (c.ZSTD_compress2 cctx cap src).res ≤ c.ZSTD_compressBound src.length
  decompress_ok : ∀ (cap cap2 : Nat) (src : List Byte), src.length < 2 ^ 31 →
    c.ZSTD_isError (c.ZSTD_compress2 cctx cap src).res = false →
    src.length ≤ cap2 →
    c.ZSTD_decompressDCtx dctx cap2 (c.ZSTD_compress2 cctx cap src).written
      = { res := src.length, written := src } ∧
    c.ZSTD_isError src.length = false

/-- The contract the zero-byte law assumes of one compress call of the external
codec, with `room` the length of the destination array: a result that is no
error status counts the bytes of the frame stored, which are at least one for a
non-empty source and no more than the array holds. -/
def Codec.StoresFrame (c : Codec) (cctx cap : Nat) (src : List Byte) (room : Nat) : Prop :=
  c.ZSTD_isError (c.ZSTD_compress2 cctx cap src).res = false →
    (src ≠ [] → 1 ≤ (c.ZSTD_compress2 cctx cap src).res) ∧
    (c.ZSTD_compress2 cctx cap src).res ≤ room

instance (c : Codec) (cctx cap : Nat) (src : List Byte) (room : Nat) :
    Decidable (c.StoresFrame cctx cap src room) := by
  unfold Codec.StoresFrame; infer_instance

/-! ## Concrete instances, for evaluating the statements -/

/-- A codec that stores the source verbatim: both directions copy the source when
it fits the capacity and report a destination-too-small error status otherwise;
the bound of `n` bytes is `n`.  Error statuses are the top 119 values of
`size_t`. -/
def storedCodec : Codec where
  ZSTD_compress2 := fun _ cap src =>
    if src.length ≤ cap then { res := src.length, written := src }
    else { res := 2 ^ 64 - 70, written := [] }
  ZSTD_decompressDCtx := fun _ cap src =>
    if src.length ≤ cap then { res := src.length, written := src }
    else { res := 2 ^ 64 - 70, written := [] }
  ZSTD_isError := fun code => decide (2 ^ 64 - 120 < code)
  ZSTD_getErrorName := fun _ => "Destination buffer is too small"
  ZSTD_compressBound := fun n => n

/-- An environment with no failure raised, every position 0, and two direct
buffers: buffer 0 holds `[1, 2, 3, 4]`, every other buffer four zero bytes. -/
def env0 : JNIEnv where
  thrown := []
  position := fun _ => 0
  direct := fun buf => if buf = 0 then [1, 2, 3, 4] else [0, 0, 0, 0]

/-- A native world with nothing alive and the device stopped. -/
def world0 : Native := { live := [], deviceRunning := false }

/-- A backend object before `setup`: all three fields zero. -/
def backend0 : ZstdBackend := { cctx := 0, dctx := 0, sequenceProducerState := 0 }

/-- Outcomes of the external calls of a first `setup`: everything succeeds, with
the handles 1, 2 and 3. -/
def outcomeA : SetupOutcome :=
  { startQatDevice := 0, createCCtx := 1, createDCtx := 2, createSeqProdState := 3,
    setFallback := 0, setLevel := 0 }

/-- Outcomes of the external calls of a second `setup`: everything succeeds, with
the handles 4, 5 and 6. -/
def outcomeB : SetupOutcome :=
  { startQatDevice := 0, createCCtx := 4, createDCtx := 5, createSeqProdState := 6,
    setFallback := 0, setLevel := 0 }

/-- Outcomes in which `ZSTD_createDCtx` returns `NULL` and every other call succeeds. -/
def outcomeNullDCtx : SetupOutcome :=
  { startQatDevice := 0, createCCtx := 1, createDCtx := 0, createSeqProdState := 3,
    setFallback := 0, setLevel := 0 }

/-- Outcomes in which the device starts, both contexts are created and
`QZSTD_createSeqProdState` returns `NULL`. -/
def outcomeNullState : SetupOutcome :=
  { startQatDevice := 0, createCCtx := 1, createDCtx := 2, createSeqProdState := 0,
    setFallback := 0, setLevel := 0 }

/-- Session A is set up in the empty world. -/
def sessionA : SetupResult :=
  Java_com_intel_qat_ZstdJNI_setup storedCodec outcomeA env0 world0 backend0 1 0 3

/-- Session B is set up after session A, on a backend object of its own. -/
def sessionB : SetupResult :=
  Java_com_intel_qat_ZstdJNI_setup storedCodec outcomeB sessionA.env sessionA.native backend0 1 0 3

/-- Session A is torn down while session B is initialized. -/
def afterTeardownA : TeardownResult :=
  Java_com_intel_qat_ZstdJNI_teardown sessionB.native sessionA.zstd_backend.cctx
    sessionA.zstd_backend.dctx sessionA.zstd_backend.sequenceProducerState

/-- The list `d` with the bytes `xs` stored from index `p` on; the effect of a run
of consecutive stores of the stub, used to describe its result. -/
def overwrite (d : List Byte) (p : Nat) (xs : List Byte) : List Byte :=
  d.take p ++ xs ++ d.drop (p + xs.length)

example : Java_com_intel_qat_DummyJNI_maxCompressedSize 2 10 = 20 := by decide

example : Java_com_intel_qat_DummyJNI_maxCompressedSize 2 2147483648 = 0 := by decide

example : Java_com_intel_qat_DummyJNI_compressByteArray 5 [1, 2, 3] 1 2 [0, 0, 0, 0, 0, 0] 1 4
    = .ok { src_arr := [1, 2, 3], dst_arr := [0, 2, 3, 2, 3, 0], ret := 4 } := by decide

example : Java_com_intel_qat_DummyJNI_compressByteArray 5 [1, 2, 3] 0 3 [0, 0, 0, 0, 0, 0] 1 4
    = .ok { src_arr := [1, 2, 3], dst_arr := [0, 1, 2, 3, 1, 0], ret := 4 } := by decide

example : compressByteArrayTraced 5 [1, 2, 3] 1 2 [0, 0, 0, 0, 0, 0] 1 3
    = .ok { result := { src_arr := [1, 2, 3], dst_arr := [0, 2, 3, 2, 0, 0], ret := 3 },
            reads := [1, 2, 1], writes := [1, 2, 3] } := by decide

/-! ## Machine-integer facts -/

theorem toJint_of_isJint {x : Int} (h : isJint x) : toJint x = x := by
  unfold toJint; unfold isJint at h; omega

theorem toJlong_of_isJlong {x : Int} (h : isJlong x) : toJlong x = x := by
  unfold toJlong; unfold isJlong at h; omega

theorem isJint_toJint (x : Int) : isJint (toJint x) := by
  unfold toJint isJint; omega

theorem toJint_toJlong (x : Int) : toJint (toJlong x) = toJint x := by
  unfold toJint toJlong; omega

theorem stub_maxCompressedSize_eq (ratio src_size : Int) :
    Java_com_intel_qat_DummyJNI_maxCompressedSize ratio src_size = toJint (ratio * src_size) := by
  unfold Java_com_intel_qat_DummyJNI_maxCompressedSize
  exact toJint_toJlong _

theorem stub_maxCompressedSize_of_fits {ratio src_size : Int}
    (hfit : isJint (ratio * src_size)) :
    Java_com_intel_qat_DummyJNI_maxCompressedSize ratio src_size = ratio * src_size := by
  rw [stub_maxCompressedSize_eq, toJint_of_isJint hfit]

/-- C9, as stated, fails: ratio 2 (a `jint`) and source size 2^30 (a `jlong`) have
the product 2^31, which no 32-bit signed result can be; the stub returns -2^31. -/
theorem stub_maxCompressedSize_not_exact :
    isJint 2 ∧ isJlong 1073741824 ∧
    Java_com_intel_qat_DummyJNI_maxCompressedSize 2 1073741824 = -2147483648 ∧
    Java_com_intel_qat_DummyJNI_maxCompressedSize 2 1073741824 ≠ 2 * 1073741824 := by
  decide

/-- C9, amended: whenever the product `ratio * src_size` fits a 32-bit signed
integer, the stub `maxCompressedSize` returns exactly that product. -/
theorem stub_maxCompressedSize_exact (ratio src_size : Int)
    (hfit : isJint (ratio * src_size)) :
    Java_com_intel_qat_DummyJNI_maxCompressedSize ratio src_size = ratio * src_size :=
  stub_maxCompressedSize_of_fits hfit

theorem stub_maxCompressedSize_exact_witness :
    isJint (2 * 10) ∧ Java_com_intel_qat_DummyJNI_maxCompressedSize 2 10 = 2 * 10 :=
  ⟨by decide, stub_maxCompressedSize_exact 2 10 (by decide)⟩

/-- C10, as stated, fails: with ratio 1 the source sizes 2^31 - 1 ≤ 2^31 get the
estimates 2^31 - 1 and -2^31, so the estimate decreases. -/
theorem stub_maxCompressedSize_not_monotone :
    (1 : Int) ≤ 1 ∧ (0 : Int) ≤ 2147483647 ∧ (2147483647 : Int) ≤ 2147483648 ∧
    ¬ (Java_com_intel_qat_DummyJNI_maxCompressedSize 1 2147483647
        ≤ Java_com_intel_qat_DummyJNI_maxCompressedSize 1 2147483648) := by
  decide

/-- C10, amended: for every ratio ≥ 1 the stub estimate of size 0 is non-negative,
and for source sizes `0 ≤ s1 ≤ s2` whose largest estimate `ratio * s2` fits a
32-bit signed integer, the estimate of `s1` is at most the estimate of `s2`. -/
theorem stub_maxCompressedSize_monotone (ratio s1 s2 : Int) (hr : 1 ≤ ratio)
    (h1 : 0 ≤ s1) (h12 : s1 ≤ s2) (hfit : ratio * s2 < 2 ^ 31) :
    0 ≤ Java_com_intel_qat_DummyJNI_maxCompressedSize ratio 0 ∧
    Java_com_intel_qat_DummyJNI_maxCompressedSize ratio s1
      ≤ Java_com_intel_qat_DummyJNI_maxCompressedSize ratio s2 := by
  have hr0 : (0 : Int) ≤ ratio := by omega
  have hle : ratio * s1 ≤ ratio * s2 := Int.mul_le_mul_of_nonneg_left h12 hr0
  have h0 : 0 ≤ ratio * s1 := Int.mul_nonneg hr0 h1
  have hj1 : isJint (ratio * s1) := by unfold isJint; omega
  have hj2 : isJint (ratio * s2) := by unfold isJint; omega
  have hz : isJint (ratio * 0) := by simp [isJint]
  rw [stub_maxCompressedSize_of_fits hz, stub_maxCompressedSize_of_fits hj1,
    stub_maxCompressedSize_of_fits hj2]
  constructor
  · simp
  · exact hle

theorem stub_maxCompressedSize_monotone_witness :
    0 ≤ Java_com_intel_qat_DummyJNI_maxCompressedSize 2 0 ∧
    Java_com_intel_qat_DummyJNI_maxCompressedSize 2 10
      ≤ Java_com_intel_qat_DummyJNI_maxCompressedSize 2 20 :=
  stub_maxCompressedSize_monotone 2 10 20 (by decide) (by decide) (by decide) (by decide)

/-! ## The stub codec (C8) -/

theorem overwrite_length (d : List Byte) (p : Nat) (xs : List Byte)
    (h : p + xs.length ≤ d.length) : (overwrite d p xs).length = d.length := by
  simp [overwrite]; omega

theorem overwrite_nil (d : List Byte) (p : Nat) : overwrite d p [] = d := by
  simp [overwrite]

theorem overwrite_lookup (d : List Byte) (p : Nat) (xs : List Byte) (q : Nat)
    (h : p + xs.length ≤ d.length) :
    (overwrite d p xs)[q]? =
      if q < p then d[q]? else if q < p + xs.length then xs[q - p]? else d[q]? := by
  unfold overwrite
  have hp : (d.take p).length = p := by simp; omega
  by_cases h1 : q < p
  · rw [if_pos h1, List.append_assoc, List.getElem?_append_left (by omega)]
    rw [List.getElem?_take_of_lt h1]
  · rw [if_neg h1, List.append_assoc, List.getElem?_append_right (by omega), hp]
    by_cases h2 : q < p + xs.length
    · rw [if_pos h2, List.getElem?_append_left (by omega)]
    · rw [if_neg h2, List.getElem?_append_right (by omega), List.getElem?_drop]
      congr 1; omega

theorem overwrite_set_cons (d : List Byte) (p : Nat) (x : Byte) (xs : List Byte)
    (h : p + (xs.length + 1) ≤ d.length) :
    overwrite (d.set p x) (p + 1) xs = overwrite d p (x :: xs) := by
  apply List.ext_getElem?
  intro q
  rw [overwrite_lookup _ _ _ _ (by simp; omega), overwrite_lookup _ _ _ _ (by simp; omega)]
  simp only [List.getElem?_set, List.length_cons]
  by_cases h1 : q < p
  · have : ¬ p = q := by omega
    simp [h1, this, show q < p + 1 by omega]
  · by_cases h2 : q = p
    · subst h2
      simp [h]
      omega
    · have h3 : ¬ q < p + 1 := by omega
      have h4 : ¬ p = q := by omega
      simp only [h1, h3, h4, if_false]
      by_cases h5 : q < p + 1 + xs.length
      · have h6 : q < p + (xs.length + 1) := by omega
        simp only [h5, h6, if_true]
        obtain ⟨k, rfl⟩ : ∃ k, q = p + 1 + k := ⟨q - (p + 1), by omega⟩
        have e1 : p + 1 + k - (p + 1) = k := by omega
        have e2 : p + 1 + k - p = k + 1 := by omega
        rw [e1, e2]; simp
      · have h6 : ¬ q < p + (xs.length + 1) := by omega
        simp only [h5, h6, if_false]

theorem readAt_cast (src : List Byte) (a b : Nat) (h : a + b < src.length) :
    readAt src ((a : Int) + (b : Int)) = .ok (src[a + b]) := by
  have e : ((a : Int) + (b : Int)).toNat = a + b := by omega
  have h0 : (0 : Int) ≤ (a : Int) + (b : Int) := by omega
  simp only [readAt, h0, if_true, e, List.getElem?_eq_getElem h]

theorem writeAt_cast (dst : List Byte) (a b : Nat) (x : Byte) (h : a + b < dst.length) :
    writeAt dst ((a : Int) + (b : Int)) x = .ok (dst.set (a + b) x) := by
  have e : ((a : Int) + (b : Int)).toNat = a + b := by omega
  have h0 : (0 : Int) ≤ (a : Int) + (b : Int) ∧ (a : Int) + (b : Int) < (dst.length : Int) := by
    omega
  simp only [writeAt, h0, and_self, if_true, e]

theorem stubInnerLoop_spec (src : List Byte) (sp sl dp dl : Nat)
    (hs : sp + sl ≤ src.length) :
    ∀ (fuel i bw : Nat) (dst : List Byte), i ≤ sl → bw ≤ dl → dp + dl ≤ dst.length →
      sl - i < fuel →
      stubInnerLoop src sp sl dp dl fuel i { dst_ptr := dst, bytes_written := bw } =
        .ok { dst_ptr := overwrite dst (dp + bw)
                ((src.drop (sp + i)).take (min (sl - i) (dl - bw))),
              bytes_written := ((bw + min (sl - i) (dl - bw) : Nat) : Int) } := by
  intro fuel
  induction fuel with
  | zero => intro i bw dst _ _ _ hf; omega
  | succ fuel ih =>
    intro i bw dst hi hbw hd hf
    by_cases hc : i < sl ∧ bw < dl
    · obtain ⟨h1, h2⟩ := hc
      have hc2 : ((i : Int) < (sl : Int) ∧ (bw : Int) < (dl : Int)) := by omega
      have hmin : min (sl - i) (dl - bw) = min (sl - (i + 1)) (dl - (bw + 1)) + 1 := by omega
      have hsi : sp + i < src.length := by omega
      have hdi : dp + bw < dst.length := by omega
      simp only [stubInnerLoop, hc2, and_self, if_true]
      rw [readAt_cast src sp i hsi]
      simp only []
      rw [writeAt_cast dst dp bw _ hdi]
      simp only []
      have e1 : (i : Int) + 1 = ((i + 1 : Nat) : Int) := by push_cast; rfl
      have e2 : (bw : Int) + 1 = ((bw + 1 : Nat) : Int) := by push_cast; rfl
      have hd1 : dp + dl ≤ (dst.set (dp + bw) src[sp + i]).length := by simpa using hd
      have hi1 : i + 1 ≤ sl := by omega
      have hb1 : bw + 1 ≤ dl := by omega
      have hf1 : sl - (i + 1) < fuel := by omega
      rw [e1, e2, ih (i + 1) (bw + 1) _ hi1 hb1 hd1 hf1]
      rw [hmin, List.drop_eq_getElem_cons hsi, List.take_succ_cons]
      congr 1
      have hlen : ((src.drop (sp + i + 1)).take (min (sl - (i + 1)) (dl - (bw + 1)))).length
          = min (sl - (i + 1)) (dl - (bw + 1)) := by
        simp; omega
      congr 1
      · rw [← overwrite_set_cons _ _ _ _ (by rw [hlen]; omega)]
        rfl
      · push_cast; omega
    · have hc2 : ¬ ((i : Int) < (sl : Int) ∧ (bw : Int) < (dl : Int)) := by omega
      have hmin : min (sl - i) (dl - bw) = 0 := by omega
      simp only [stubInnerLoop, hc2, if_false, hmin, List.take_zero, overwrite_nil, Nat.add_zero]


theorem stub_compressByteArray_core (src dst : List Byte) (sp sl dp dl fuel : Nat)
    (hs : sp + sl ≤ src.length) (hd : dp + dl ≤ dst.length) (hf : sl < fuel) (hf2 : 2 < fuel) :
    Java_com_intel_qat_DummyJNI_compressByteArray fuel src sp sl dst dp dl =
      .ok { src_arr := src,
            dst_arr := overwrite (overwrite dst dp ((src.drop sp).take (min sl dl)))
              (dp + min sl dl) ((src.drop sp).take (min sl (dl - min sl dl))),
            ret := ((min sl dl + min sl (dl - min sl dl) : Nat) : Int) } := by
  obtain ⟨f, rfl⟩ : ∃ f, fuel = f + 3 := ⟨fuel - 3, by omega⟩
  have p1 := stubInnerLoop_spec src sp sl dp dl hs (f + 3) 0 0 dst (by omega) (by omega) hd
    (by omega)
  simp only [Nat.cast_zero, Nat.add_zero, Nat.sub_zero, Nat.zero_add] at p1
  have hlen1 : ((src.drop sp).take (min sl dl)).length = min sl dl := by simp; omega
  have hd2 : dp + dl ≤ (overwrite dst dp ((src.drop sp).take (min sl dl))).length := by
    rw [overwrite_length _ _ _ (by rw [hlen1]; omega)]; exact hd
  have p2 := stubInnerLoop_spec src sp sl dp dl hs (f + 3) 0 (min sl dl)
    (overwrite dst dp ((src.drop sp).take (min sl dl))) (by omega) (by omega) hd2 (by omega)
  simp only [Nat.cast_zero, Nat.add_zero, Nat.sub_zero] at p2
  simp only [Java_com_intel_qat_DummyJNI_compressByteArray, stubOuterLoop]
  have c0 : (0 : Int) < 2 := by decide
  have c1 : (0 : Int) + 1 < 2 := by decide
  have c2 : ¬ ((0 : Int) + 1 + 1 < 2) := by decide
  simp only [c0, c1, c2, if_true, if_false, p1, p2]

theorem stub_twice_lookup (src dst : List Byte) (sp sl dp dl : Nat)
    (hs : sp + sl ≤ src.length) (hd : dp + dl ≤ dst.length) (k : Nat)
    (hk : k < min sl dl + min sl (dl - min sl dl)) :
    (overwrite (overwrite dst dp ((src.drop sp).take (min sl dl)))
        (dp + min sl dl) ((src.drop sp).take (min sl (dl - min sl dl))))[dp + k]?
      = src[sp + k % sl]? := by
  have hsl : 0 < sl := by omega
  have hmod := Nat.mod_lt k hsl
  have hlen1 : ((src.drop sp).take (min sl dl)).length = min sl dl := by simp; omega
  have hlen2 : ((src.drop sp).take (min sl (dl - min sl dl))).length
      = min sl (dl - min sl dl) := by simp; omega
  have hl1 : (overwrite dst dp ((src.drop sp).take (min sl dl))).length = dst.length :=
    overwrite_length _ _ _ (by rw [hlen1]; omega)
  rw [overwrite_lookup _ _ _ _ (by rw [hlen2, hl1]; omega), hlen2]
  by_cases h1 : k < min sl dl
  · have e : k % sl = k := Nat.mod_eq_of_lt (by omega)
    rw [if_pos (by omega), overwrite_lookup _ _ _ _ (by rw [hlen1]; omega), hlen1,
      if_neg (by omega), if_pos (by omega)]
    have e2 : dp + k - dp = k := by omega
    rw [e2, List.getElem?_take_of_lt h1, List.getElem?_drop, e]
  · have hm : min sl dl = sl := by omega
    have e : k % sl = k - sl := by
      rw [Nat.mod_eq_sub_mod (by omega), Nat.mod_eq_of_lt (by omega)]
    rw [if_neg (by omega), if_pos (by omega)]
    have e2 : dp + k - (dp + min sl dl) = k - sl := by omega
    have hks : k - sl < min sl (dl - min sl dl) := by omega
    rw [e2, List.getElem?_take_of_lt hks, List.getElem?_drop, e]

/-- C8: under the stated bounds and with fuel beyond `max src_len 2`, the stub
`compressByteArray` returns `min (2 * src_len) dst_len` and every destination
byte `dst[dst_pos + k]`, `0 ≤ k < n`, holds `src[src_pos + k mod src_len]`. -/
theorem stub_compressByteArray_output (fuel : Nat) (src_arr dst_arr : List Byte)
    (src_pos src_len dst_pos dst_len : Int)
    (hsp : 0 ≤ src_pos) (hsl : 0 ≤ src_len) (hdp : 0 ≤ dst_pos) (hdl : 0 ≤ dst_len)
    (hs : src_pos + src_len ≤ src_arr.length) (hd : dst_pos + dst_len ≤ dst_arr.length)
    (hfuel : max src_len 2 < fuel) :
    ∃ r, Java_com_intel_qat_DummyJNI_compressByteArray fuel src_arr src_pos src_len
          dst_arr dst_pos dst_len = .ok r ∧
      r.ret = min (2 * src_len) dst_len ∧
      ∀ k : Int, 0 ≤ k → k < r.ret →
        ∃ b, src_arr[(src_pos + k % src_len).toNat]? = some b ∧
          r.dst_arr[(dst_pos + k).toNat]? = some b := by
  lift src_pos to ℕ using hsp
  lift src_len to ℕ using hsl
  lift dst_pos to ℕ using hdp
  lift dst_len to ℕ using hdl
  have hs1 : src_pos + src_len ≤ src_arr.length := by exact_mod_cast hs
  have hd1 : dst_pos + dst_len ≤ dst_arr.length := by exact_mod_cast hd
  have hf1 : src_len < fuel := by omega
  have hf2 : 2 < fuel := by omega
  refine ⟨_, stub_compressByteArray_core src_arr dst_arr src_pos src_len dst_pos dst_len fuel
    hs1 hd1 hf1 hf2, ?_, ?_⟩
  · simp only []
    omega
  · intro k hk0 hk
    lift k to ℕ using hk0
    simp only [] at hk
    have hk1 : k < min src_len dst_len + min src_len (dst_len - min src_len dst_len) := by
      exact_mod_cast hk
    have hsl0 : 0 < src_len := by omega
    have hmod := Nat.mod_lt k hsl0
    have hin : src_pos + k % src_len < src_arr.length := by omega
    refine ⟨src_arr[src_pos + k % src_len], ?_, ?_⟩
    · have e : ((src_pos : Int) + (k : Int) % (src_len : Int)).toNat = src_pos + k % src_len := by
        rw [← Int.natCast_mod]; omega
      rw [e]
      exact List.getElem?_eq_getElem hin
    · have e : ((dst_pos : Int) + (k : Int)).toNat = dst_pos + k := by omega
      rw [e, stub_twice_lookup src_arr dst_arr src_pos src_len dst_pos dst_len hs1 hd1 k hk1]
      exact List.getElem?_eq_getElem hin

theorem stub_compressByteArray_output_witness :
    ∃ r, Java_com_intel_qat_DummyJNI_compressByteArray 11 (List.replicate 10 0xAB) 0 10
          (List.replicate 20 0) 0 20 = .ok r ∧
      r.ret = min (2 * 10) 20 ∧
      ∀ k : Int, 0 ≤ k → k < r.ret →
        ∃ b, (List.replicate 10 (0xAB : Byte))[((0 : Int) + k % 10).toNat]? = some b ∧
          r.dst_arr[((0 : Int) + k).toNat]? = some b :=
  stub_compressByteArray_output 11 (List.replicate 10 0xAB) (List.replicate 20 0) 0 10 0 20
    (by decide) (by decide) (by decide) (by decide) (by decide) (by decide) (by decide)

/-- The scenario of the specification: 10 source bytes `0xAB` and a destination of
length 20 give 20 bytes written, each `0xAB`. -/
theorem stub_compressByteArray_scenario :
    Java_com_intel_qat_DummyJNI_compressByteArray 11 (List.replicate 10 0xAB) 0 10
        (List.replicate 20 0) 0 20
      = .ok { src_arr := List.replicate 10 0xAB, dst_arr := List.replicate 20 0xAB,
              ret := 20 } := by
  decide


/-! ## The helpers and the direct-buffer entry points (C2, C3) -/

/-- C2: `compress` and `decompress` each raise a failure exactly when the codec
result is an error status or differs from `dst_len`. -/
theorem helpers_raise_iff (c : Codec) (env : JNIEnv) (ctx : Nat) (src_ptr : Ptr)
    (src_len : Nat) (dst_ptr : Ptr) (dst_len : Nat) (bytes_read bytes_written : Int)
    (retry_count : Int) :
    (raised env (compress c env ctx src_ptr src_len dst_ptr dst_len bytes_read bytes_written
        retry_count).env ↔
      (c.ZSTD_isError (c.ZSTD_compress2 ctx dst_len (src_ptr.load src_len)).res = true ∨
        (c.ZSTD_compress2 ctx dst_len (src_ptr.load src_len)).res ≠ dst_len)) ∧
    (raised env (decompress c env ctx src_ptr src_len dst_ptr dst_len bytes_read bytes_written
        retry_count).env ↔
      (c.ZSTD_isError (c.ZSTD_decompressDCtx ctx dst_len (src_ptr.load src_len)).res = true ∨
        (c.ZSTD_decompressDCtx ctx dst_len (src_ptr.load src_len)).res ≠ dst_len)) := by
  constructor
  · unfold compress
    by_cases he : c.ZSTD_isError (c.ZSTD_compress2 ctx dst_len (src_ptr.load src_len)).res = true
    · simp [he, raised, throw_exception]
    · by_cases hr : (c.ZSTD_compress2 ctx dst_len (src_ptr.load src_len)).res = dst_len
      · have he2 := he
        rw [hr] at he2
        simp [hr, he2, raised]
      · simp [he, hr, raised, throw_exception]
  · unfold decompress
    by_cases he :
        c.ZSTD_isError (c.ZSTD_decompressDCtx ctx dst_len (src_ptr.load src_len)).res = true
    · simp [he, raised, throw_exception]
    · by_cases hr : (c.ZSTD_decompressDCtx ctx dst_len (src_ptr.load src_len)).res = dst_len
      · have he2 := he
        rw [hr] at he2
        simp [hr, he2, raised]
      · simp [he, hr, raised, throw_exception]

theorem toUInt_natCast (n : Nat) (h : n < 2 ^ 31) : toUInt (n : Int) = n := by
  unfold toUInt; omega

theorem toJint_natCast (n : Nat) (h : n < 2 ^ 31) : toJint (n : Int) = n := by
  unfold toJint; omega

theorem Ptr.load_add (m : List Byte) (n len : Nat) :
    Ptr.load (Ptr.add { mem := m, off := 0 } (n : Int)) len = (m.drop n).take len := by
  simp [Ptr.load, Ptr.add]

theorem Ptr.store_add (m : List Byte) (n : Nat) (bytes : List Byte) :
    Ptr.store (Ptr.add { mem := m, off := 0 } (n : Int)) bytes
      = m.take n ++ bytes ++ m.drop (n + bytes.length) := by
  simp [Ptr.store, Ptr.add]

theorem drop_take_stored (m : List Byte) (n : Nat) (bytes : List Byte) (h : n ≤ m.length) :
    ((m.take n ++ bytes ++ m.drop (n + bytes.length)).drop n).take bytes.length = bytes := by
  have hl : (m.take n).length = n := by simp; omega
  rw [List.append_assoc, List.drop_append_eq_append_drop, hl, Nat.sub_self, List.drop_zero,
    List.drop_eq_nil_of_le (by omega), List.nil_append]
  exact List.take_left _ _

theorem storedCodec_lossless (cctx dctx : Nat) : storedCodec.Lossless cctx dctx where
  compress_ok := by
    intro cap src hlen hcap
    have h1 : src.length ≤ cap := hcap
    simp only [storedCodec, h1, if_true, decide_eq_false_iff_not]
    omega
  compress_size := by
    intro cap src hlen hne
    by_cases h1 : src.length ≤ cap
    · simp [storedCodec, h1]
    · simp [storedCodec, h1] at hne
  decompress_ok := by
    intro cap cap2 src hlen hne h2
    by_cases h1 : src.length ≤ cap
    · simp only [storedCodec, h1, h2, if_true, decide_eq_false_iff_not, true_and]
      omega
    · simp [storedCodec, h1] at hne

/-- C1, as stated, fails: `storedCodec` is lossless and within its bound, and the
destination length 2 is at least `maxCompressedSize(1) = 1`, yet
`compressByteArray` raises a failure, because the codec filled 1 byte of 2.  The
same happens on the way back: after a compression into exactly 1 byte, a
destination of length 2 for one original byte makes `decompressByteArray` raise. -/
theorem roundtrip_fails_on_larger_destination :
    storedCodec.Lossless (toSizeT 1) (toSizeT 1) ∧
    Java_com_intel_qat_ZstdJNI_maxCompressedSize storedCodec 1 ≤ 2 ∧
    raised env0 (Java_com_intel_qat_ZstdJNI_compressByteArray storedCodec env0 1
      [7] 0 1 [0, 0] 0 2 0).env ∧
    ¬ raised env0 (Java_com_intel_qat_ZstdJNI_compressByteArray storedCodec env0 1
      [7] 0 1 [0, 0] 0 1 0).env ∧
    raised env0 (Java_com_intel_qat_ZstdJNI_decompressByteArray storedCodec env0 1
      (Java_com_intel_qat_ZstdJNI_compressByteArray storedCodec env0 1
        [7] 0 1 [0, 0] 0 1 0).dst_arr 0 1 [0, 0] 0 2 0).env :=
  ⟨storedCodec_lossless _ _, by decide, by decide, by decide, by decide⟩


/-- C1, amended: for a lossless codec, a valid source region and a destination
region whose length `dst_len` is exactly the byte count the codec reports for
that source (no error status), `compressByteArray` raises no failure and returns
`dst_len`; `decompressByteArray` applied to the bytes it produced, with a
destination region of exactly `src_len` bytes, raises no failure, returns
`src_len` and leaves the source bytes in the destination region. -/
theorem roundtrip_exact_sizes (c : Codec) (long_cctx long_dctx : Int)
    (hL : c.Lossless (toSizeT long_cctx) (toSizeT long_dctx)) (env : JNIEnv)
    (src_arr : List Byte) (src_pos src_len : Int) (dst_arr : List Byte) (dst_pos dst_len : Int)
    (out_arr : List Byte) (out_pos : Int) (retry_count : Int)
    (hsp : 0 ≤ src_pos) (hsl : 0 ≤ src_len) (hs : src_pos + src_len ≤ src_arr.length)
    (hsj : src_len < 2 ^ 31)
    (hdp : 0 ≤ dst_pos) (hdl : 0 ≤ dst_len) (hd : dst_pos + dst_len ≤ dst_arr.length)
    (hdj : dst_len < 2 ^ 31)
    (hop : 0 ≤ out_pos) (ho : out_pos + src_len ≤ out_arr.length)
    (hne : c.ZSTD_isError (c.ZSTD_compress2 (toSizeT long_cctx) dst_len.toNat
      ((src_arr.drop src_pos.toNat).take src_len.toNat)).res = false)
    (hres : (c.ZSTD_compress2 (toSizeT long_cctx) dst_len.toNat
      ((src_arr.drop src_pos.toNat).take src_len.toNat)).res = dst_len.toNat) :
    ¬ raised env (Java_com_intel_qat_ZstdJNI_compressByteArray c env long_cctx src_arr src_pos
        src_len dst_arr dst_pos dst_len retry_count).env ∧
    (Java_com_intel_qat_ZstdJNI_compressByteArray c env long_cctx src_arr src_pos
        src_len dst_arr dst_pos dst_len retry_count).ret = dst_len ∧
    ¬ raised env (Java_com_intel_qat_ZstdJNI_decompressByteArray c
        (Java_com_intel_qat_ZstdJNI_compressByteArray c env long_cctx src_arr src_pos
          src_len dst_arr dst_pos dst_len retry_count).env long_dctx
        (Java_com_intel_qat_ZstdJNI_compressByteArray c env long_cctx src_arr src_pos
          src_len dst_arr dst_pos dst_len retry_count).dst_arr dst_pos
        (Java_com_intel_qat_ZstdJNI_compressByteArray c env long_cctx src_arr src_pos
          src_len dst_arr dst_pos dst_len retry_count).ret
        out_arr out_pos src_len retry_count).env ∧
    (Java_com_intel_qat_ZstdJNI_decompressByteArray c
        (Java_com_intel_qat_ZstdJNI_compressByteArray c env long_cctx src_arr src_pos
          src_len dst_arr dst_pos dst_len retry_count).env long_dctx
        (Java_com_intel_qat_ZstdJNI_compressByteArray c env long_cctx src_arr src_pos
          src_len dst_arr dst_pos dst_len retry_count).dst_arr dst_pos
        (Java_com_intel_qat_ZstdJNI_compressByteArray c env long_cctx src_arr src_pos
          src_len dst_arr dst_pos dst_len retry_count).ret
        out_arr out_pos src_len retry_count).ret = src_len ∧
    ((Java_com_intel_qat_ZstdJNI_decompressByteArray c
        (Java_com_intel_qat_ZstdJNI_compressByteArray c env long_cctx src_arr src_pos
          src_len dst_arr dst_pos dst_len retry_count).env long_dctx
        (Java_com_intel_qat_ZstdJNI_compressByteArray c env long_cctx src_arr src_pos
          src_len dst_arr dst_pos dst_len retry_count).dst_arr dst_pos
        (Java_com_intel_qat_ZstdJNI_compressByteArray c env long_cctx src_arr src_pos
          src_len dst_arr dst_pos dst_len retry_count).ret
        out_arr out_pos src_len retry_count).dst_arr.drop out_pos.toNat).take src_len.toNat
      = (src_arr.drop src_pos.toNat).take src_len.toNat := by
  lift src_pos to ℕ using hsp
  lift src_len to ℕ using hsl
  lift dst_pos to ℕ using hdp
  lift dst_len to ℕ using hdl
  lift out_pos to ℕ using hop
  simp only [Int.toNat_ofNat] at hne hres ⊢
  have hs1 : src_pos + src_len ≤ src_arr.length := by exact_mod_cast hs
  have hd1 : dst_pos + dst_len ≤ dst_arr.length := by exact_mod_cast hd
  have ho1 : out_pos + src_len ≤ out_arr.length := by exact_mod_cast ho
  have hsj1 : src_len < 2 ^ 31 := by exact_mod_cast hsj
  have hdj1 : dst_len < 2 ^ 31 := by exact_mod_cast hdj
  have hreg : ((src_arr.drop src_pos).take src_len).length = src_len := by simp; omega
  have hreg2 : ((src_arr.drop src_pos).take src_len).length < 2 ^ 31 := by rw [hreg]; exact hsj1
  obtain ⟨hwl, -, -⟩ := hL.compress_size dst_len _ hreg2 hne
  rw [hres] at hwl
  obtain ⟨hdec, hdne⟩ := hL.decompress_ok dst_len src_len _ hreg2 hne (by rw [hreg])
  rw [hreg] at hdec hdne
  have hne2 : c.ZSTD_isError dst_len = false := by rw [← hres]; exact hne
  -- the compression call
  have hc : Java_com_intel_qat_ZstdJNI_compressByteArray c env long_cctx src_arr src_pos
      src_len dst_arr dst_pos dst_len retry_count
      = { env := env, src_arr := src_arr,
          dst_arr := dst_arr.take dst_pos ++
            (c.ZSTD_compress2 (toSizeT long_cctx) dst_len
              ((src_arr.drop src_pos).take src_len)).written ++ dst_arr.drop (dst_pos + dst_len),
          ret := dst_len } := by
    simp only [Java_com_intel_qat_ZstdJNI_compressByteArray, compress, toUInt_natCast _ hsj1,
      toUInt_natCast _ hdj1, Ptr.load_add, Ptr.store_add, hres, hne2, hwl,
      toJint_natCast _ hdj1]
    simp
  rw [hc]
  simp only []
  have hload : ((dst_arr.take dst_pos ++
      (c.ZSTD_compress2 (toSizeT long_cctx) dst_len
        ((src_arr.drop src_pos).take src_len)).written ++
      dst_arr.drop (dst_pos + dst_len)).drop dst_pos).take dst_len
      = (c.ZSTD_compress2 (toSizeT long_cctx) dst_len
        ((src_arr.drop src_pos).take src_len)).written := by
    have := drop_take_stored dst_arr dst_pos (c.ZSTD_compress2 (toSizeT long_cctx) dst_len
        ((src_arr.drop src_pos).take src_len)).written (by omega)
    rw [hwl] at this
    exact this
  have hdcall : Java_com_intel_qat_ZstdJNI_decompressByteArray c env long_dctx
      (dst_arr.take dst_pos ++
        (c.ZSTD_compress2 (toSizeT long_cctx) dst_len
          ((src_arr.drop src_pos).take src_len)).written ++ dst_arr.drop (dst_pos + dst_len))
      dst_pos dst_len out_arr out_pos src_len retry_count
      = { env := env,
          src_arr := dst_arr.take dst_pos ++
            (c.ZSTD_compress2 (toSizeT long_cctx) dst_len
              ((src_arr.drop src_pos).take src_len)).written ++ dst_arr.drop (dst_pos + dst_len),
          dst_arr := out_arr.take out_pos ++ (src_arr.drop src_pos).take src_len
            ++ out_arr.drop (out_pos + src_len),
          ret := src_len } := by
    simp only [Java_com_intel_qat_ZstdJNI_decompressByteArray, decompress,
      toUInt_natCast _ hsj1, toUInt_natCast _ hdj1, Ptr.load_add, Ptr.store_add, hload, hdec,
      hdne, hreg, toJint_natCast _ hsj1]
    simp
  rw [hdcall]
  simp only []
  refine ⟨by simp [raised], trivial, by simp [raised], trivial, ?_⟩
  have := drop_take_stored out_arr out_pos ((src_arr.drop src_pos).take src_len) (by omega)
  rw [hreg] at this
  exact this

theorem roundtrip_exact_sizes_witness :
    ¬ raised env0 (Java_com_intel_qat_ZstdJNI_compressByteArray storedCodec env0 1 [7, 8, 9] 1
        2 [0, 0, 0, 0] 1 2 0).env ∧
    ((Java_com_intel_qat_ZstdJNI_decompressByteArray storedCodec
        (Java_com_intel_qat_ZstdJNI_compressByteArray storedCodec env0 1 [7, 8, 9] 1
          2 [0, 0, 0, 0] 1 2 0).env 1
        (Java_com_intel_qat_ZstdJNI_compressByteArray storedCodec env0 1 [7, 8, 9] 1
          2 [0, 0, 0, 0] 1 2 0).dst_arr 1
        (Java_com_intel_qat_ZstdJNI_compressByteArray storedCodec env0 1 [7, 8, 9] 1
          2 [0, 0, 0, 0] 1 2 0).ret
        [0, 0, 0] 0 2 0).dst_arr.drop (0 : Int).toNat).take (2 : Int).toNat
      = (([7, 8, 9] : List Byte).drop (1 : Int).toNat).take (2 : Int).toNat :=
  have h := roundtrip_exact_sizes storedCodec 1 1 (storedCodec_lossless _ _) env0 [7, 8, 9] 1 2
    [0, 0, 0, 0] 1 2 [0, 0, 0] 0 0 (by decide) (by decide) (by decide) (by decide) (by decide)
    (by decide) (by decide) (by decide) (by decide) (by decide) (by decide) (by decide)
  ⟨h.1, h.2.2.2.2⟩

/-! ## Session lifecycle (C4, C5, C6, C7) -/

/-- C4: when `ZSTD_createDCtx` returns `NULL` and every other external call
succeeds, `setup` raises no failure and writes the three fields with a null
`dctx` between two non-null handles: the session is neither fully initialized
nor untouched. -/
theorem setup_null_dctx_partial_session :
    ¬ raised env0 (Java_com_intel_qat_ZstdJNI_setup storedCodec outcomeNullDCtx env0 world0
      backend0 1 0 3).env ∧
    (Java_com_intel_qat_ZstdJNI_setup storedCodec outcomeNullDCtx env0 world0
      backend0 1 0 3).zstd_backend = { cctx := 1, dctx := 0, sequenceProducerState := 3 } ∧
    ¬ (Java_com_intel_qat_ZstdJNI_setup storedCodec outcomeNullDCtx env0 world0
      backend0 1 0 3).zstd_backend.initialized := by
  decide

/-- C5: when the device starts, both contexts are created and
`QZSTD_createSeqProdState` returns `NULL`, `setup` raises a failure, leaves the
backend untouched, and returns with both contexts still alive and the device
still running. -/
theorem setup_failure_leaks :
    raised env0 (Java_com_intel_qat_ZstdJNI_setup storedCodec outcomeNullState env0 world0
      backend0 1 0 3).env ∧
    (Java_com_intel_qat_ZstdJNI_setup storedCodec outcomeNullState env0 world0
      backend0 1 0 3).zstd_backend = backend0 ∧
    (Java_com_intel_qat_ZstdJNI_setup storedCodec outcomeNullState env0 world0
      backend0 1 0 3).native = { live := [2, 1], deviceRunning := true } := by
  decide

/-- C6, as stated, fails: with the device running (another session holds the
handles 1, 2, 3), `teardown` on three null handles stops the device, so the
state is not left unchanged. -/
theorem teardown_null_handles_changes_state :
    (Java_com_intel_qat_ZstdJNI_teardown { live := [1, 2, 3], deviceRunning := true }
      0 0 0).native ≠ { live := [1, 2, 3], deviceRunning := true } := by
  decide

/-- C6, amended: for every state of the native world, `teardown` with all three
handles null returns `QZ_OK` and frees nothing (the live handles are unchanged);
when the device is not running the state is left unchanged; and a second such
call leaves the state the first one left, with the same status. -/
theorem teardown_null_handles (w : Native) :
    (Java_com_intel_qat_ZstdJNI_teardown w 0 0 0).ret = QZ_OK ∧
    (Java_com_intel_qat_ZstdJNI_teardown w 0 0 0).native.live = w.live ∧
    (w.deviceRunning = false → (Java_com_intel_qat_ZstdJNI_teardown w 0 0 0).native = w) ∧
    Java_com_intel_qat_ZstdJNI_teardown (Java_com_intel_qat_ZstdJNI_teardown w 0 0 0).native 0 0 0
      = Java_com_intel_qat_ZstdJNI_teardown w 0 0 0 := by
  have h0 : toSizeT 0 = 0 := by decide
  refine ⟨rfl, ?_, ?_, ?_⟩
  · simp [Java_com_intel_qat_ZstdJNI_teardown, h0, QZSTD_stopQatDevice]
  · intro h
    cases w with
    | mk live deviceRunning =>
      simp only at h
      simp [Java_com_intel_qat_ZstdJNI_teardown, h0, QZSTD_stopQatDevice, h]
  · simp [Java_com_intel_qat_ZstdJNI_teardown, h0, QZSTD_stopQatDevice]

theorem teardown_null_handles_witness :
    (Java_com_intel_qat_ZstdJNI_teardown world0 0 0 0).native = world0 :=
  (teardown_null_handles world0).2.2.1 (by decide)

/-- C7: session A is set up (handles 1, 2, 3), session B is set up (handles
4, 5, 6), then A is torn down.  Both setups raise no failure and B stays
initialized with its three handles alive, yet the device is no longer running. -/
theorem device_stopped_while_session_live :
    ¬ raised env0 sessionA.env ∧ ¬ raised sessionA.env sessionB.env ∧
    sessionA.zstd_backend.initialized ∧ sessionB.zstd_backend.initialized ∧
    sessionB.native = { live := [6, 5, 4, 3, 2, 1], deviceRunning := true } ∧
    afterTeardownA.native = { live := [6, 5, 4], deviceRunning := false } := by
  decide

/-! ## Failures of the compression operation (C11, C12) -/

/-- A negative `dst_len`: `-1` is the capacity 2^32 - 1 to the codec, which stores
the one source byte and reports 1, so the incomplete operation is raised. -/
theorem compress_negative_destination_scenario :
    storedCodec.StoresFrame (toSizeT 1) (toUInt (-1)) [7] 2 ∧
    storedCodec.ZSTD_isError (storedCodec.ZSTD_compress2 (toSizeT 1) (toUInt (-1)) [7]).res
      = false ∧
    raised env0 (Java_com_intel_qat_ZstdJNI_compressByteArray storedCodec env0 1 [7] 0 1
      [0, 0] 0 (-1) 0).env := by
  decide

/-- C12: the codec stores 1 byte into a destination of 2 and reports the
non-error result 1.  `compress` raises the failure and still sets
`bytes_read = 1` and `bytes_written = 2`, so `compressByteArray` returns 2 and
`compressDirectByteBuffer` moves the positions to `0 + 1` and `0 + 2`;
`decompress` on the same input raises the failure and leaves both at 0. -/
theorem compress_incomplete_reports_progress :
    storedCodec.ZSTD_isError (storedCodec.ZSTD_compress2 1 2 [7]).res = false ∧
    (storedCodec.ZSTD_compress2 1 2 [7]).res ≠ 2 ∧
    raised env0 (compress storedCodec env0 1 { mem := [7], off := 0 } 1
      { mem := [0, 0], off := 0 } 2 0 0 0).env ∧
    (compress storedCodec env0 1 { mem := [7], off := 0 } 1
      { mem := [0, 0], off := 0 } 2 0 0 0).bytes_read = 1 ∧
    (compress storedCodec env0 1 { mem := [7], off := 0 } 1
      { mem := [0, 0], off := 0 } 2 0 0 0).bytes_written = 2 ∧
    (Java_com_intel_qat_ZstdJNI_compressByteArray storedCodec env0 1 [7] 0 1 [0, 0] 0 2 0).ret
      = 2 ∧
    raised env0 (Java_com_intel_qat_ZstdJNI_compressDirectByteBuffer storedCodec env0 1 0 0 1
      1 0 2 0).env ∧
    (Java_com_intel_qat_ZstdJNI_compressDirectByteBuffer storedCodec env0 1 0 0 1
      1 0 2 0).ret = 2 ∧
    (Java_com_intel_qat_ZstdJNI_compressDirectByteBuffer storedCodec env0 1 0 0 1
      1 0 2 0).env.position 0 = 1 ∧
    (Java_com_intel_qat_ZstdJNI_compressDirectByteBuffer storedCodec env0 1 0 0 1
      1 0 2 0).env.position 1 = 2 ∧
    raised env0 (decompress storedCodec env0 1 { mem := [7], off := 0 } 1
      { mem := [0, 0], off := 0 } 2 0 0 0).env ∧
    (decompress storedCodec env0 1 { mem := [7], off := 0 } 1
      { mem := [0, 0], off := 0 } 2 0 0 0).bytes_read = 0 ∧
    (decompress storedCodec env0 1 { mem := [7], off := 0 } 1
      { mem := [0, 0], off := 0 } 2 0 0 0).bytes_written = 0 ∧
    (Java_com_intel_qat_ZstdJNI_decompressDirectByteBuffer storedCodec env0 1 0 0 1
      1 0 2 0).ret = 0 ∧
    (Java_com_intel_qat_ZstdJNI_decompressDirectByteBuffer storedCodec env0 1 0 0 1
      1 0 2 0).env.position 0 = 0 ∧
    (Java_com_intel_qat_ZstdJNI_decompressDirectByteBuffer storedCodec env0 1 0 0 1
      1 0 2 0).env.position 1 = 0 := by
  decide

/-! ## The stub codec stays in bounds (C13) -/

theorem stubInnerLoopTraced_erase (src_ptr : List Byte) (src_pos src_len dst_pos dst_len : Int) :
    ∀ (fuel : Nat) (i : Int) (t : TracedState),
      (stubInnerLoopTraced src_ptr src_pos src_len dst_pos dst_len fuel i t).map TracedState.st
        = stubInnerLoop src_ptr src_pos src_len dst_pos dst_len fuel i t.st := by
  intro fuel
  induction fuel with
  | zero => intro i t; rfl
  | succ fuel ih =>
    intro i t
    simp only [stubInnerLoopTraced, stubInnerLoop]
    by_cases hc : i < src_len ∧ t.st.bytes_written < dst_len
    · simp only [hc, and_self, if_true]
      cases readAt src_ptr (src_pos + i) with
      | error e => rfl
      | ok b =>
        simp only []
        cases writeAt t.st.dst_ptr (dst_pos + t.st.bytes_written) b with
        | error e => rfl
        | ok d => exact ih _ _
    · simp only [hc, if_false]
      rfl

theorem stubOuterLoopTraced_erase (src_ptr : List Byte)
    (src_pos src_len dst_pos dst_len ratio : Int) (innerFuel : Nat) :
    ∀ (fuel : Nat) (j : Int) (t : TracedState),
      (stubOuterLoopTraced src_ptr src_pos src_len dst_pos dst_len ratio innerFuel fuel j
          t).map TracedState.st
        = stubOuterLoop src_ptr src_pos src_len dst_pos dst_len ratio innerFuel fuel j t.st := by
  intro fuel
  induction fuel with
  | zero => intro j t; rfl
  | succ fuel ih =>
    intro j t
    simp only [stubOuterLoopTraced, stubOuterLoop]
    by_cases hc : j < ratio
    · simp only [hc, if_true]
      rw [← stubInnerLoopTraced_erase]
      cases stubInnerLoopTraced src_ptr src_pos src_len dst_pos dst_len innerFuel 0 t with
      | error e => rfl
      | ok t1 => exact ih _ _
    · simp only [hc, if_false]
      rfl

theorem compressByteArrayTraced_erase (fuel : Nat) (src_arr : List Byte)
    (src_pos src_len : Int) (dst_arr : List Byte) (dst_pos dst_len : Int) :
    (compressByteArrayTraced fuel src_arr src_pos src_len dst_arr dst_pos dst_len).map
        TracedResult.result
      = Java_com_intel_qat_DummyJNI_compressByteArray fuel src_arr src_pos src_len dst_arr
          dst_pos dst_len := by
  simp only [compressByteArrayTraced, Java_com_intel_qat_DummyJNI_compressByteArray]
  rw [← stubOuterLoopTraced_erase src_arr src_pos src_len dst_pos dst_len 2 fuel fuel 0
    { st := { dst_ptr := dst_arr, bytes_written := 0 }, reads := [], writes := [] }]
  cases stubOuterLoopTraced src_arr src_pos src_len dst_pos dst_len 2 fuel fuel 0
      { st := { dst_ptr := dst_arr, bytes_written := 0 }, reads := [], writes := [] } with
  | error e => rfl
  | ok t => rfl

theorem stubInnerLoopTraced_inRegions (src_ptr : List Byte)
    (src_pos src_len dst_pos dst_len : Int) :
    ∀ (fuel : Nat) (i : Int) (t t1 : TracedState), 0 ≤ i →
      t.inRegions src_pos src_len dst_pos dst_len →
      stubInnerLoopTraced src_ptr src_pos src_len dst_pos dst_len fuel i t = .ok t1 →
      t1.inRegions src_pos src_len dst_pos dst_len := by
  intro fuel
  induction fuel with
  | zero => intro i t t1 _ _ h; simp [stubInnerLoopTraced] at h
  | succ fuel ih =>
    intro i t t1 hi hin h
    simp only [stubInnerLoopTraced] at h
    by_cases hc : i < src_len ∧ t.st.bytes_written < dst_len
    · simp only [hc, and_self, if_true] at h
      cases hr : readAt src_ptr (src_pos + i) with
      | error e => rw [hr] at h; simp at h
      | ok b =>
        rw [hr] at h
        simp only [] at h
        cases hw : writeAt t.st.dst_ptr (dst_pos + t.st.bytes_written) b with
        | error e => rw [hw] at h; simp at h
        | ok d =>
          rw [hw] at h
          simp only [] at h
          refine ih (i + 1) _ t1 (by omega) ?_ h
          obtain ⟨h1, h2, h3, h4⟩ := hin
          have hb : 0 ≤ t.st.bytes_written := by omega
          refine ⟨?_, ?_, ?_, ?_⟩
          · intro x hx
            simp only [List.mem_append, List.mem_singleton] at hx
            rcases hx with hx | hx
            · exact h1 x hx
            · omega
          · intro x hx
            simp only [List.mem_append, List.mem_singleton] at hx
            rcases hx with hx | hx
            · exact h2 x hx
            · omega
          · simp only [List.length_append, List.length_singleton]; push_cast; omega
          · simp only [List.length_append, List.length_singleton]; push_cast; omega
    · simp only [hc, if_false] at h
      cases h
      exact hin

theorem stubOuterLoopTraced_inRegions (src_ptr : List Byte)
    (src_pos src_len dst_pos dst_len ratio : Int) (innerFuel : Nat) :
    ∀ (fuel : Nat) (j : Int) (t t1 : TracedState),
      t.inRegions src_pos src_len dst_pos dst_len →
      stubOuterLoopTraced src_ptr src_pos src_len dst_pos dst_len ratio innerFuel fuel j t
        = .ok t1 →
      t1.inRegions src_pos src_len dst_pos dst_len := by
  intro fuel
  induction fuel with
  | zero => intro j t t1 _ h; simp [stubOuterLoopTraced] at h
  | succ fuel ih =>
    intro j t t1 hin h
    simp only [stubOuterLoopTraced] at h
    by_cases hc : j < ratio
    · simp only [hc, if_true] at h
      cases hr : stubInnerLoopTraced src_ptr src_pos src_len dst_pos dst_len innerFuel 0 t with
      | error e => rw [hr] at h; simp at h
      | ok t2 =>
        rw [hr] at h
        simp only [] at h
        exact ih (j + 1) t2 t1
          (stubInnerLoopTraced_inRegions src_ptr src_pos src_len dst_pos dst_len innerFuel 0 t t2
            (le_refl 0) hin hr) h
    · simp only [hc, if_false] at h
      cases h
      exact hin

theorem stub_twice_outside (dst : List Byte) (dp m1 m2 : Nat) (xs ys : List Byte)
    (hx : xs.length = m1) (hy : ys.length = m2) (hd : dp + (m1 + m2) ≤ dst.length) (q : Nat)
    (hq : q < dp ∨ dp + (m1 + m2) ≤ q) :
    (overwrite (overwrite dst dp xs) (dp + m1) ys)[q]? = dst[q]? := by
  have hl1 : (overwrite dst dp xs).length = dst.length :=
    overwrite_length _ _ _ (by rw [hx]; omega)
  rw [overwrite_lookup _ _ _ _ (by rw [hy, hl1]; omega), hy,
    overwrite_lookup _ _ _ _ (by rw [hx]; omega), hx]
  rcases hq with hq | hq
  · rw [if_pos (by omega), if_pos hq]
  · rw [if_neg (by omega), if_neg (by omega), if_neg (by omega), if_neg (by omega)]

/-- C13: under the stated bounds and with fuel beyond `max src_len 2`, the stub
`compressByteArray` returns a result (the loops end and no access leaves its
array); every read index lies in `[src_pos, src_pos + src_len)` and every write
index in `[dst_pos, dst_pos + dst_len)`, one of each per byte counted; the
returned count is at most `dst_len`; the source array is unchanged, and so is
every destination byte outside `[dst_pos, dst_pos + returned count)`. -/
theorem stub_compressByteArray_safe (fuel : Nat) (src_arr dst_arr : List Byte)
    (src_pos src_len dst_pos dst_len : Int)
    (hsp : 0 ≤ src_pos) (hsl : 0 ≤ src_len) (hdp : 0 ≤ dst_pos) (hdl : 0 ≤ dst_len)
    (hs : src_pos + src_len ≤ src_arr.length) (hd : dst_pos + dst_len ≤ dst_arr.length)
    (hfuel : max src_len 2 < fuel) :
    ∃ r reads writes,
      compressByteArrayTraced fuel src_arr src_pos src_len dst_arr dst_pos dst_len
        = .ok { result := r, reads := reads, writes := writes } ∧
      Java_com_intel_qat_DummyJNI_compressByteArray fuel src_arr src_pos src_len
        dst_arr dst_pos dst_len = .ok r ∧
      (∀ x ∈ reads, src_pos ≤ x ∧ x < src_pos + src_len) ∧
      (∀ x ∈ writes, dst_pos ≤ x ∧ x < dst_pos + dst_len) ∧
      (reads.length : Int) = r.ret ∧ (writes.length : Int) = r.ret ∧
      0 ≤ r.ret ∧ r.ret ≤ dst_len ∧
      r.src_arr = src_arr ∧
      r.dst_arr.length = dst_arr.length ∧
      ∀ q : Nat, ((q : Int) < dst_pos ∨ dst_pos + r.ret ≤ (q : Int)) →
        r.dst_arr[q]? = dst_arr[q]? := by
  lift src_pos to ℕ using hsp
  lift src_len to ℕ using hsl
  lift dst_pos to ℕ using hdp
  lift dst_len to ℕ using hdl
  have hs1 : src_pos + src_len ≤ src_arr.length := by exact_mod_cast hs
  have hd1 : dst_pos + dst_len ≤ dst_arr.length := by exact_mod_cast hd
  have hf1 : src_len < fuel := by omega
  have hf2 : 2 < fuel := by omega
  have hcore := stub_compressByteArray_core src_arr dst_arr src_pos src_len dst_pos dst_len fuel
    hs1 hd1 hf1 hf2
  have herase := compressByteArrayTraced_erase fuel src_arr src_pos src_len dst_arr dst_pos
    dst_len
  rw [hcore] at herase
  -- the recorded run ends in a state that satisfies the region invariant
  have hinit : TracedState.inRegions (src_pos : Int) src_len dst_pos dst_len
      { st := { dst_ptr := dst_arr, bytes_written := 0 }, reads := [], writes := [] } := by
    refine ⟨?_, ?_, ?_, ?_⟩ <;> simp
  cases hout : stubOuterLoopTraced src_arr (src_pos : Int) src_len dst_pos dst_len 2 fuel fuel 0
      { st := { dst_ptr := dst_arr, bytes_written := 0 }, reads := [], writes := [] } with
  | error e =>
    simp [compressByteArrayTraced, hout, Except.map] at herase
  | ok t =>
    have hreg := stubOuterLoopTraced_inRegions src_arr (src_pos : Int) src_len dst_pos dst_len 2
      fuel fuel 0 _ t hinit hout
    have htr : compressByteArrayTraced fuel src_arr src_pos src_len dst_arr dst_pos dst_len
        = .ok { result := { src_arr := src_arr, dst_arr := t.st.dst_ptr,
                            ret := t.st.bytes_written },
                reads := t.reads, writes := t.writes } := by
      simp only [compressByteArrayTraced, hout]
    rw [htr] at herase
    simp only [Except.map, Except.ok.injEq] at herase
    obtain ⟨h1, h2, h3, h4⟩ := hreg
    have hlenA : ((src_arr.drop src_pos).take (min src_len dst_len)).length
        = min src_len dst_len := by simp; omega
    have hlenB : ((src_arr.drop src_pos).take
        (min src_len (dst_len - min src_len dst_len))).length
        = min src_len (dst_len - min src_len dst_len) := by simp; omega
    refine ⟨_, t.reads, t.writes, ?_, hcore, h1, h2, ?_, ?_, ?_, ?_, rfl, ?_, ?_⟩
    · rw [htr, herase]
    · rw [h3, ← herase]
    · rw [h4, ← herase]
    · simp only []; omega
    · simp only []; omega
    · simp only []
      rw [overwrite_length _ _ _ (by
        rw [hlenB, overwrite_length _ _ _ (by rw [hlenA]; omega)]; omega),
        overwrite_length _ _ _ (by rw [hlenA]; omega)]
    · intro q hq
      simp only [] at hq ⊢
      exact stub_twice_outside dst_arr dst_pos _ _ _ _ hlenA hlenB (by omega) q (by omega)

theorem stub_compressByteArray_safe_witness :
    ∃ r reads writes,
      compressByteArrayTraced 11 (List.replicate 10 0xAB) 0 10 (List.replicate 24 0) 2 20
        = .ok { result := r, reads := reads, writes := writes } ∧
      Java_com_intel_qat_DummyJNI_compressByteArray 11 (List.replicate 10 0xAB) 0 10
        (List.replicate 24 0) 2 20 = .ok r ∧
      (∀ x ∈ reads, (0 : Int) ≤ x ∧ x < 0 + 10) ∧
      (∀ x ∈ writes, (2 : Int) ≤ x ∧ x < 2 + 20) ∧
      (reads.length : Int) = r.ret ∧ (writes.length : Int) = r.ret ∧
      0 ≤ r.ret ∧ r.ret ≤ 20 ∧
      r.src_arr = List.replicate 10 0xAB ∧
      r.dst_arr.length = (List.replicate 24 (0 : Byte)).length ∧
      ∀ q : Nat, ((q : Int) < 2 ∨ 2 + r.ret ≤ (q : Int)) →
        r.dst_arr[q]? = (List.replicate 24 (0 : Byte))[q]? :=
  stub_compressByteArray_safe 11 (List.replicate 10 0xAB) (List.replicate 24 0) 0 10 2 20
    (by decide) (by decide) (by decide) (by decide) (by decide) (by decide) (by decide)

end QatJava
